import Mathlib

/-!
Shallow embedding of the refund-classification engine in `src/Refund.py`.

The Python script reads a tabular dataset, normalizes expected columns
(creating missing ones), coerces the numeric columns `regfeepaid` and
`forefit`, applies `compute_refund` to every row, and optionally compares
the computed refunds against a manually verified reference file.

Amounts are modelled as rationals (the Python code uses floats; the rule
engine only copies and adds amounts taken from the input fields, so the
algebraic structure is preserved exactly).
-/

namespace Refund

/-- Python `str.strip`: drop leading and trailing whitespace.  Implemented
on the character list so that it evaluates inside the kernel. -/
def trimList (l : List Char) : List Char :=
  ((l.dropWhile Char.isWhitespace).reverse.dropWhile Char.isWhitespace).reverse

/-- Python helper `sval`: `""` for null, else the trimmed string.  Null
cells are modelled as the empty string upstream, so here it is a trim. -/
def sval (x : String) : String := String.mk (trimList x.toList)

/-- Python helper `sstatus`: `sval` then uppercase (`str.upper`). -/
def sstatus (x : String) : String :=
  String.mk ((trimList x.toList).map Char.toUpper)

/-- One input row as `compute_refund` reads it via `row.get`: the two
numeric columns (already passed through `to_num_col`) and the raw string
columns. -/
structure Record where
  regfeepaid : ℚ
  forefit : ℚ
  Allot_1 : String
  Allot_2 : String
  Allot_3 : String
  JoinStatus_1 : String
  JoinStatus_2 : String
  JoinStatus_3 : String
  JoinStray : String
  Stray : String
  Remarks : String
deriving DecidableEq

/-- The three output columns of one row of `compute_refund`. -/
structure Decision where
  RefundAmount : ℚ
  NewForefit : ℚ
  RefundCategory : String
deriving DecidableEq

/-- Guard of the SPECIAL rule (Refund.py line 89):
`(js1 == "Y" or js2 == "Y") and js3 == "TC" and join_stray == "Y"`. -/
def specialGuard (r : Record) : Prop :=
  (sstatus r.JoinStatus_1 = "Y" ∨ sstatus r.JoinStatus_2 = "Y") ∧
    sstatus r.JoinStatus_3 = "TC" ∧ sstatus r.JoinStray = "Y"

instance (r : Record) : Decidable (specialGuard r) := by
  unfold specialGuard; infer_instance

/-- Guard of RULE 2 (line 98): no allotment anywhere, joined via Spot,
actually joined in stray (`js3 = "Y"`). -/
def rule2Guard (r : Record) : Prop :=
  sval r.Allot_1 = "" ∧ sval r.Allot_2 = "" ∧ sval r.Allot_3 = "" ∧
    sstatus r.JoinStray = "Y" ∧ sstatus r.JoinStatus_3 = "Y"

instance (r : Record) : Decidable (rule2Guard r) := by
  unfold rule2Guard; infer_instance

/-- Guard of RULE 1 (line 106): paid again, no allotment in P3, joined via
Spot and joined in stray. -/
def rule1Guard (r : Record) : Prop :=
  0 < r.forefit ∧ 0 < r.regfeepaid ∧ sval r.Allot_3 = "" ∧
    sstatus r.JoinStray = "Y" ∧ sstatus r.JoinStatus_3 = "Y"

instance (r : Record) : Decidable (rule1Guard r) := by
  unfold rule1Guard; infer_instance

/-- Guard of RULE 3 (line 114): paid again, got an allotment in P3 and
joined. -/
def rule3Guard (r : Record) : Prop :=
  0 < r.forefit ∧ 0 < r.regfeepaid ∧ sval r.Allot_3 ≠ "" ∧
    sstatus r.JoinStatus_3 = "Y"

instance (r : Record) : Decidable (rule3Guard r) := by
  unfold rule3Guard; infer_instance

/-- Guard of the no-allotment rule (line 123): no allotment anywhere and no
stray recorded. -/
def noAllotGuard (r : Record) : Prop :=
  sval r.Allot_1 = "" ∧ sval r.Allot_2 = "" ∧ sval r.Allot_3 = "" ∧
    sval r.Stray = ""

instance (r : Record) : Decidable (noAllotGuard r) := by
  unfold noAllotGuard; infer_instance

/-- Guard of the joined-in-phase-1/2 rule (line 131): `js1=="Y" or js2=="Y"`. -/
def joinedEarlyGuard (r : Record) : Prop :=
  sstatus r.JoinStatus_1 = "Y" ∨ sstatus r.JoinStatus_2 = "Y"

instance (r : Record) : Decidable (joinedEarlyGuard r) := by
  unfold joinedEarlyGuard; infer_instance

/-- Python `"TC" in (js1, js2, js3)` (line 132). -/
def anyTC (r : Record) : Prop :=
  sstatus r.JoinStatus_1 = "TC" ∨ sstatus r.JoinStatus_2 = "TC" ∨
    sstatus r.JoinStatus_3 = "TC"

instance (r : Record) : Decidable (anyTC r) := by
  unfold anyTC; infer_instance

/-- Guard of the phase-3/stray block (line 145): `js1=="" and js2==""`. -/
def phase3Block (r : Record) : Prop :=
  sstatus r.JoinStatus_1 = "" ∧ sstatus r.JoinStatus_2 = ""

instance (r : Record) : Decidable (phase3Block r) := by
  unfold phase3Block; infer_instance

/-- Guard of the not-joined rule (line 168):
`js1 in ("N","TC") and js2 in ("N","TC")`. -/
def notJoinedGuard (r : Record) : Prop :=
  (sstatus r.JoinStatus_1 = "N" ∨ sstatus r.JoinStatus_1 = "TC") ∧
    (sstatus r.JoinStatus_2 = "N" ∨ sstatus r.JoinStatus_2 = "TC")

instance (r : Record) : Decidable (notJoinedGuard r) := by
  unfold notJoinedGuard; infer_instance

/-- The rule evaluator `compute_refund` (Refund.py lines 72-186), one
decision per row, first matching rule wins.  The Python phase-3/stray
block (`if js1=="" and js2=="":` with three inner `if`s, falling through
to the later checks when none of the inner conditions holds) is flattened
into the equivalent chain of conjunctive guards. -/
def compute_refund (r : Record) : Decision :=
  if specialGuard r then
    ⟨r.regfeepaid, r.forefit,
      "Special: Joined P1/P2 + TC in P3 + Stray -> full refund"⟩
  else if rule2Guard r then
    ⟨r.regfeepaid, r.forefit,
      "Rule2: No allotment & joined via Spot -> full refund"⟩
  else if rule1Guard r then
    ⟨r.regfeepaid, r.forefit,
      "Rule1: Paid again, no P3 allot, joined via spot -> refund 2nd payment"⟩
  else if rule3Guard r then
    ⟨r.regfeepaid, r.forefit,
      "Rule3: Paid again, got P3 allot & joined -> refund 2nd payment"⟩
  else if noAllotGuard r then
    ⟨r.regfeepaid, r.forefit, "No allotment - full refund"⟩
  else if joinedEarlyGuard r then
    if anyTC r then
      ⟨0, r.forefit + r.regfeepaid, "Joined then TC - no refund"⟩
    else
      ⟨r.regfeepaid, r.forefit, "Joined in phase 1/2 - full refund"⟩
  else if phase3Block r ∧ sstatus r.JoinStatus_3 = "Y" then
    ⟨r.regfeepaid, r.forefit, "Joined in phase 3 - full refund"⟩
  else if phase3Block r ∧ sstatus r.JoinStray = "Y" ∧
      sstatus r.JoinStatus_3 = "Y" then
    ⟨r.regfeepaid, r.forefit, "Joined via stray - full refund"⟩
  else if phase3Block r ∧ sstatus r.JoinStray = "Y" ∧
      sstatus r.JoinStatus_3 ≠ "Y" then
    ⟨0, r.forefit + r.regfeepaid, "Stray allotted but NOT joined - no refund"⟩
  else if notJoinedGuard r then
    if sstatus r.JoinStatus_3 = "N" then
      ⟨0, r.forefit + r.regfeepaid, "Not joined in 1/2/3 - forfeit"⟩
    else
      ⟨0, r.forefit + r.regfeepaid, "Not joined in 1/2 - forfeit"⟩
  else
    ⟨0, r.forefit, "Check manually"⟩

/-! ### Column normalization (Refund.py lines 35-47)

The script walks `expected_cols`; a column that is absent is either renamed
from the first present `APPLNO`-style variant or created as an empty
column.  No branch raises an error. -/

/-- The expected column list (line 35). -/
def expected_cols : List String :=
  ["APPLNO", "regfeepaid", "forefit",
   "Allot_1", "Allot_2", "Allot_3",
   "JoinStatus_1", "JoinStatus_2", "JoinStatus_3",
   "JoinStray", "Stray", "Remarks"]

/-- The common variants tried for a missing column (line 42). -/
def applnoAlternatives : List String := ["ApplNo", "Applno", "Appl_No", "Appl No"]

/-- `df.rename(columns={a:c})`: replace column name `a` by `c`. -/
def renameCol (cols : List String) (a c : String) : List String :=
  cols.map fun x => if x = a then c else x

/-- One pass of the loop body (lines 40-47): if `c` is absent, rename the
first present alternative to `c`, otherwise synthesize `c` (an empty
column). -/
def fixCol (cols : List String) (c : String) : List String :=
  if c ∈ cols then cols
  else
    match applnoAlternatives.find? (fun a => cols.contains a) with
    | some a => renameCol cols a c
    | none => cols ++ [c]

/-- The whole `for c in expected_cols` loop (lines 39-47): the resulting
set of columns of the primary dataset. -/
def normalizeCols (cols : List String) : List String :=
  expected_cols.foldl fixCol cols

/-! ### Numeric column normalization `to_num_col` (Refund.py lines 50-55)

`df[col].astype(str).str.replace(",","").replace("nan","0").replace("None","0")`
then `pd.to_numeric(..., errors="coerce").fillna(0)`, applied cell-wise. -/

/-- One raw cell of a numeric column: either a null (pandas `NaN`) or a
string. -/
inductive RawCell where
  | null
  | str (s : String)
deriving DecidableEq

/-- `astype(str)`: pandas renders a null cell as the string `"nan"`. -/
def cellStr : RawCell → String
  | .null => "nan"
  | .str s => s

/-- `str.replace(",", "")`: drop every comma character. -/
def stripCommas (s : String) : String :=
  String.mk (s.toList.filter fun c => c != ',')

/-- `Series.replace("nan","0").replace("None","0")`: exact-match cell
replacement (applied after the comma strip, as in the source). -/
def replaceNanNone (s : String) : String :=
  if s = "nan" then "0" else if s = "None" then "0" else s

/-- Value of a digit list, most significant first. -/
def digitsVal (l : List Char) : ℕ :=
  l.foldl (fun n c => 10 * n + (c.toNat - 48)) 0

/-- Modelled library behavior: `pd.to_numeric` on an unsigned plain decimal
literal (digits with at most one decimal point; anything else is a parse
failure, which `errors="coerce"` maps to `NaN`).  Scientific notation and
other exotic accepted forms are outside the modelled subset. -/
def parseUnsigned (l : List Char) : Option ℚ :=
  match l.splitOn '.' with
  | [ip] =>
      if ip ≠ [] ∧ ip.all Char.isDigit then some ((digitsVal ip : ℕ) : ℚ)
      else none
  | [ip, fp] =>
      if ip ++ fp ≠ [] ∧ (ip ++ fp).all Char.isDigit then
        some (((digitsVal (ip ++ fp) : ℕ) : ℚ) / (10 : ℚ) ^ fp.length)
      else none
  | _ => none

/-- Modelled library behavior: `pd.to_numeric` on one cell string —
whitespace is stripped, an optional sign is honoured, the rest must be a
plain decimal literal. -/
def pyParse (l : List Char) : Option ℚ :=
  match trimList l with
  | '-' :: rest => (parseUnsigned rest).map fun q => -q
  | '+' :: rest => parseUnsigned rest
  | t => parseUnsigned t

/-- The full cell-wise pipeline of `to_num_col` (lines 50-55): normalize
the text, parse, and coerce a failed parse (`NaN`) to `0` (`fillna(0)`). -/
def to_num (c : RawCell) : ℚ :=
  (pyParse (replaceNanNone (stripCommas (cellStr c))).toList).getD 0

/-! ### Comparator (Refund.py lines 229-234)

`df_out.merge(df_manual[["APPLNO","Refund"]]..., on="APPLNO", how="left")`
followed by `ManualRefund.fillna(0)`, `Diff = ComputedRefund - ManualRefund`
and `Mismatch = Diff.abs() > 0.0001`. -/

/-- The part of a computed output row the comparator reads. -/
structure OutRow where
  APPLNO : String
  RefundAmount : ℚ
deriving DecidableEq

/-- One row of the comparison table (lines 229-234). -/
structure MergedRow where
  APPLNO : String
  ComputedRefund : ℚ
  ManualRefund : ℚ
  Diff : ℚ
  Mismatch : Bool
deriving DecidableEq

/-- Build one merged row from a computed row and the (already `fillna(0)`)
reference amount. -/
def mkMerged (r : OutRow) (v : ℚ) : MergedRow :=
  ⟨r.APPLNO, r.RefundAmount, v, r.RefundAmount - v,
    decide (|r.RefundAmount - v| > (0.0001 : ℚ))⟩

/-- The left join on `APPLNO` from the computed side: every computed row is
kept; a row with no reference match gets reference amount `0`
(`fillna(0)`); a row with several matches is repeated for each (pandas
`how="left"` semantics); reference rows with no computed match are
dropped. -/
def merged (rows : List OutRow) (manual : List (String × ℚ)) : List MergedRow :=
  rows.flatMap fun r =>
    match manual.filter (fun p => p.1 == r.APPLNO) with
    | [] => [mkMerged r 0]
    | ms => ms.map fun p => mkMerged r p.2

/-! ### Sample records used by the witnesses and counterexamples -/

/-- Scenario 1: `fee_paid = 5000`, everything else empty. -/
def recNoAllot : Record := ⟨5000, 0, "", "", "", "", "", "", "", "", ""⟩

/-- Scenario 2: joined P1, TC in P3, stray flag set, `fee_paid = 5000`. -/
def recSpecial : Record := ⟨5000, 0, "", "", "", "Y", "", "TC", "Y", "", ""⟩

/-- A stray-flagged record (`JoinStray = "Y"`) whose round-3 status is
`"N"`: allotted in round 1, never joined, `fee_paid = 1000`. -/
def recStrayNotJoined : Record := ⟨1000, 0, "A", "", "", "N", "N", "N", "Y", "S", ""⟩

/-- Joined in round 1, later TC in round 3, no stray flag, allotted in
round 1, `fee_paid = 2000`. -/
def recJoinedTC : Record := ⟨2000, 0, "A", "", "", "Y", "", "TC", "", "", ""⟩

/-- Scenario 4 with a round-1 allotment recorded: `JoinStatus_1 = "N"`,
`JoinStatus_2 = "TC"`, `JoinStatus_3 = "N"`, no stray, `fee_paid = 1000`. -/
def recNotJoined : Record := ⟨1000, 0, "A", "", "", "N", "TC", "N", "", "", ""⟩

/-- Stray allotted (`Stray = "S"`), stray flag `"Y"`, but round-3 status
`"N"`: the applicant never actually joined. -/
def recStrayForfeit : Record := ⟨1000, 0, "", "", "", "", "", "N", "Y", "S", ""⟩

/-- Scenario 3: second payment cycle joined via stray
(`prior_forfeiture = 2000`, `fee_paid = 3000`, `JoinStatus_3 = "Y"`). -/
def recStrayJoined : Record := ⟨3000, 2000, "", "", "", "", "", "Y", "Y", "", ""⟩

/-! ## Theorems -/

/-- Every branch of `compute_refund` either balances exactly or is the
manual-review fallback. -/
lemma balance_or_fallback (r : Record) :
    (compute_refund r).RefundAmount +
        ((compute_refund r).NewForefit - r.forefit) = r.regfeepaid ∨
      (compute_refund r).RefundCategory = "Check manually" := by
  unfold compute_refund
  by_cases h0 : specialGuard r
  · rw [if_pos h0]
    exact Or.inl (by show r.regfeepaid + (r.forefit - r.forefit) = r.regfeepaid; ring)
  rw [if_neg h0]
  by_cases h1 : rule2Guard r
  · rw [if_pos h1]
    exact Or.inl (by show r.regfeepaid + (r.forefit - r.forefit) = r.regfeepaid; ring)
  rw [if_neg h1]
  by_cases h2 : rule1Guard r
  · rw [if_pos h2]
    exact Or.inl (by show r.regfeepaid + (r.forefit - r.forefit) = r.regfeepaid; ring)
  rw [if_neg h2]
  by_cases h3 : rule3Guard r
  · rw [if_pos h3]
    exact Or.inl (by show r.regfeepaid + (r.forefit - r.forefit) = r.regfeepaid; ring)
  rw [if_neg h3]
  by_cases h4 : noAllotGuard r
  · rw [if_pos h4]
    exact Or.inl (by show r.regfeepaid + (r.forefit - r.forefit) = r.regfeepaid; ring)
  rw [if_neg h4]
  by_cases h5 : joinedEarlyGuard r
  · rw [if_pos h5]
    by_cases h6 : anyTC r
    · rw [if_pos h6]
      exact Or.inl
        (by show (0 : ℚ) + (r.forefit + r.regfeepaid - r.forefit) = r.regfeepaid; ring)
    · rw [if_neg h6]
      exact Or.inl (by show r.regfeepaid + (r.forefit - r.forefit) = r.regfeepaid; ring)
  rw [if_neg h5]
  by_cases h7 : phase3Block r ∧ sstatus r.JoinStatus_3 = "Y"
  · rw [if_pos h7]
    exact Or.inl (by show r.regfeepaid + (r.forefit - r.forefit) = r.regfeepaid; ring)
  rw [if_neg h7]
  by_cases h8 : phase3Block r ∧ sstatus r.JoinStray = "Y" ∧ sstatus r.JoinStatus_3 = "Y"
  · rw [if_pos h8]
    exact Or.inl (by show r.regfeepaid + (r.forefit - r.forefit) = r.regfeepaid; ring)
  rw [if_neg h8]
  by_cases h9 : phase3Block r ∧ sstatus r.JoinStray = "Y" ∧ sstatus r.JoinStatus_3 ≠ "Y"
  · rw [if_pos h9]
    exact Or.inl
      (by show (0 : ℚ) + (r.forefit + r.regfeepaid - r.forefit) = r.regfeepaid; ring)
  rw [if_neg h9]
  by_cases h10 : notJoinedGuard r
  · rw [if_pos h10]
    by_cases h11 : sstatus r.JoinStatus_3 = "N"
    · rw [if_pos h11]
      exact Or.inl
        (by show (0 : ℚ) + (r.forefit + r.regfeepaid - r.forefit) = r.regfeepaid; ring)
    · rw [if_neg h11]
      exact Or.inl
        (by show (0 : ℚ) + (r.forefit + r.regfeepaid - r.forefit) = r.regfeepaid; ring)
  rw [if_neg h10]
  exact Or.inr rfl

/-- C1: `compute_refund` is a single chain of `if`/`else` branches, so it
returns exactly one decision per record (first matching rule wins, by
construction of the function).  This theorem settles the substantive
part: for every record whose decision is not the manual-review fallback,
`RefundAmount + (NewForefit - prior forfeiture) = fee_paid`, exactly. -/
theorem c1_balance (r : Record)
    (h : (compute_refund r).RefundCategory ≠ "Check manually") :
    (compute_refund r).RefundAmount +
      ((compute_refund r).NewForefit - r.forefit) = r.regfeepaid := by
  rcases balance_or_fallback r with hb | hc
  · exact hb
  · exact absurd hc h

/-- Witness for C1 at a concrete record (scenario 1, the no-allotment
rule). -/
theorem c1_witness :
    (compute_refund recNoAllot).RefundCategory ≠ "Check manually" ∧
      (compute_refund recNoAllot).RefundAmount +
        ((compute_refund recNoAllot).NewForefit - recNoAllot.forefit) =
          recNoAllot.regfeepaid :=
  ⟨by decide, c1_balance recNoAllot (by decide)⟩

/-- C2 (counterexample): a record whose stray-join flag is `Y`, which does
not match the priority-1 special rule (`JoinStatus_1 = "N"`,
`JoinStatus_2 = "N"`, `JoinStatus_3 = "N"`, `fee_paid = 1000`), yet whose
decision is a zero refund (the code forfeits the fee), not the full
refund of `fee_paid` the claim requires. -/
theorem c2_counterexample :
    sstatus recStrayNotJoined.JoinStray = "Y" ∧
      ¬ specialGuard recStrayNotJoined ∧
      recStrayNotJoined.regfeepaid = 1000 ∧
      (compute_refund recStrayNotJoined).RefundAmount = 0 ∧
      (compute_refund recStrayNotJoined).RefundAmount ≠
        recStrayNotJoined.regfeepaid := by
  decide

/-- C2 (amended): a stray-join flag `Y` gives a full refund of `fee_paid`
with forfeiture unchanged only together with round-3 status `Y`; in the
rule that fires regardless of all remaining fields, all three allotment
cells must additionally be empty.  The forfeiture is never reset to
zero: it is returned unchanged. -/
theorem c2_stray_rule2 (r : Record)
    (hs : sstatus r.JoinStray = "Y")
    (h3 : sstatus r.JoinStatus_3 = "Y")
    (ha1 : sval r.Allot_1 = "") (ha2 : sval r.Allot_2 = "")
    (ha3 : sval r.Allot_3 = "") :
    compute_refund r =
      ⟨r.regfeepaid, r.forefit,
        "Rule2: No allotment & joined via Spot -> full refund"⟩ := by
  have h0 : ¬ specialGuard r := by
    intro hx
    obtain ⟨-, htc, -⟩ := hx
    rw [h3] at htc
    exact absurd htc (by decide)
  unfold compute_refund
  rw [if_neg h0, if_pos (show rule2Guard r from ⟨ha1, ha2, ha3, hs, h3⟩)]

/-- Witness for the amended C2 at scenario 3 (`prior_forfeiture = 2000`,
`fee_paid = 3000`, joined via stray). -/
theorem c2_witness :
    sstatus recStrayJoined.JoinStray = "Y" ∧
      sstatus recStrayJoined.JoinStatus_3 = "Y" ∧
      compute_refund recStrayJoined =
        ⟨recStrayJoined.regfeepaid, recStrayJoined.forefit,
          "Rule2: No allotment & joined via Spot -> full refund"⟩ :=
  ⟨by decide, by decide,
    c2_stray_rule2 recStrayJoined (by decide) (by decide) (by decide) (by decide)
      (by decide)⟩

/-- Membership survives a column rename to a different name. -/
lemma mem_renameCol (cols : List String) (a c x : String) (hx : x ∈ cols)
    (hne : x ≠ a) : x ∈ renameCol cols a c := by
  unfold renameCol
  exact List.mem_map.2 ⟨x, hx, if_neg hne⟩

/-- After `fixCol cols c`, the column `c` is present. -/
lemma mem_fixCol_self (cols : List String) (c : String) : c ∈ fixCol cols c := by
  unfold fixCol
  split_ifs with h
  · exact h
  · rcases hf : applnoAlternatives.find? (fun a => cols.contains a) with _ | a
    · simp only [hf]
      exact List.mem_append_right _ (by simp)
    · simp only [hf]
      have ha : a ∈ cols := by
        have h1 := List.find?_some hf
        simpa using h1
      exact List.mem_map.2 ⟨a, ha, if_pos rfl⟩

/-- `fixCol` keeps every column that is not one of the rename
alternatives. -/
lemma mem_fixCol_of_mem (cols : List String) (c x : String) (hx : x ∈ cols)
    (hax : x ∉ applnoAlternatives) : x ∈ fixCol cols c := by
  unfold fixCol
  split_ifs with h
  · exact hx
  · rcases hf : applnoAlternatives.find? (fun a => cols.contains a) with _ | a
    · simp only [hf]
      exact List.mem_append_left _ hx
    · simp only [hf]
      refine mem_renameCol cols a c x hx ?_
      intro he
      subst he
      exact hax (List.mem_of_find?_eq_some hf)

/-- A column not among the rename alternatives survives the whole loop. -/
lemma foldl_fixCol_of_mem :
    ∀ (L cols : List String) (x : String), x ∈ cols →
      x ∉ applnoAlternatives → x ∈ L.foldl fixCol cols := by
  intro L
  induction L with
  | nil => intro cols x hx _; exact hx
  | cons c L ih =>
    intro cols x hx hax
    exact ih (fixCol cols c) x (mem_fixCol_of_mem cols c x hx hax) hax

/-- Every column the loop walks over is present afterwards. -/
lemma foldl_fixCol_mem :
    ∀ (L cols : List String) (c : String), c ∈ L →
      c ∉ applnoAlternatives → c ∈ L.foldl fixCol cols := by
  intro L
  induction L with
  | nil => intro cols c hc hax; cases hc
  | cons a L ih =>
    intro cols c hc hax
    rcases List.mem_cons.1 hc with rfl | hc
    · exact foldl_fixCol_of_mem L (fixCol cols c) c (mem_fixCol_self cols c) hax
    · exact ih (fixCol cols a) c hc hax

/-- C3 (counterexample): with every structural column absent (an input
with no columns at all), the run does not abort — all expected columns
are synthesized, and a record (all fields empty, numeric fields zero, as
produced for a synthesized frame) is still evaluated by the rule engine,
contradicting "no record is processed". -/
theorem c3_counterexample :
    normalizeCols [] = expected_cols ∧
      compute_refund ⟨0, 0, "", "", "", "", "", "", "", "", ""⟩ =
        ⟨0, 0, "No allotment - full refund"⟩ := by
  decide

/-- C3 (amended): missing columns — the join-status/allotment set
included — are never a hard error: after the normalization loop every
expected column is present (renamed from an `APPLNO`-style variant or
synthesized as empty), and rule evaluation proceeds for every record. -/
theorem c3_columns_synthesized (cols : List String) (c : String)
    (hc : c ∈ expected_cols) : c ∈ normalizeCols cols := by
  refine foldl_fixCol_mem expected_cols cols c hc ?_
  fin_cases hc <;> decide

/-- Witness for the amended C3: the structural column `JoinStatus_1` is
present after normalizing an input with no columns. -/
theorem c3_witness :
    "JoinStatus_1" ∈ expected_cols ∧ "JoinStatus_1" ∈ normalizeCols [] :=
  ⟨by decide, c3_columns_synthesized [] "JoinStatus_1" (by decide)⟩

/-- C4: a record with round-1 or round-2 status `Y`, round-3 status `TC`
and stray-join flag `Y` always gets a full refund of `fee_paid` with
forfeiture unchanged and the special category — no other hypothesis is
needed, so this rule beats every later rule (in particular the generic
joined-then-TC forfeiture branch). -/
theorem c4_special (r : Record)
    (h1 : sstatus r.JoinStatus_1 = "Y" ∨ sstatus r.JoinStatus_2 = "Y")
    (h2 : sstatus r.JoinStatus_3 = "TC")
    (h3 : sstatus r.JoinStray = "Y") :
    compute_refund r =
      ⟨r.regfeepaid, r.forefit,
        "Special: Joined P1/P2 + TC in P3 + Stray -> full refund"⟩ := by
  unfold compute_refund
  rw [if_pos (show specialGuard r from ⟨h1, h2, h3⟩)]

/-- Witness for C4 at scenario 2 (`JoinStatus_1 = "Y"`,
`JoinStatus_3 = "TC"`, `JoinStray = "Y"`, `fee_paid = 5000`). -/
theorem c4_witness :
    (sstatus recSpecial.JoinStatus_1 = "Y" ∨
        sstatus recSpecial.JoinStatus_2 = "Y") ∧
      sstatus recSpecial.JoinStatus_3 = "TC" ∧
      sstatus recSpecial.JoinStray = "Y" ∧
      compute_refund recSpecial =
        ⟨recSpecial.regfeepaid, recSpecial.forefit,
          "Special: Joined P1/P2 + TC in P3 + Stray -> full refund"⟩ :=
  ⟨by decide, by decide, by decide,
    c4_special recSpecial (by decide) (by decide) (by decide)⟩

/-- C5: a record with round-1 or round-2 status `Y` that matched none of
the earlier rules forfeits the fee when any round status is `TC`, and is
fully refunded otherwise. -/
theorem c5_joined_early (r : Record)
    (hj : sstatus r.JoinStatus_1 = "Y" ∨ sstatus r.JoinStatus_2 = "Y")
    (h0 : ¬ specialGuard r) (h1 : ¬ rule2Guard r) (h2 : ¬ rule1Guard r)
    (h3 : ¬ rule3Guard r) (h4 : ¬ noAllotGuard r) :
    (anyTC r →
        compute_refund r =
          ⟨0, r.forefit + r.regfeepaid, "Joined then TC - no refund"⟩) ∧
      (¬ anyTC r →
        compute_refund r =
          ⟨r.regfeepaid, r.forefit, "Joined in phase 1/2 - full refund"⟩) := by
  unfold compute_refund
  rw [if_neg h0, if_neg h1, if_neg h2, if_neg h3, if_neg h4,
    if_pos (show joinedEarlyGuard r from hj)]
  exact ⟨fun ht => by rw [if_pos ht], fun ht => by rw [if_neg ht]⟩

/-- Witness for C5: joined in round 1, `TC` in round 3, no stray flag. -/
theorem c5_witness :
    anyTC recJoinedTC ∧
      compute_refund recJoinedTC =
        ⟨0, recJoinedTC.forefit + recJoinedTC.regfeepaid,
          "Joined then TC - no refund"⟩ :=
  ⟨by decide,
    (c5_joined_early recJoinedTC (by decide) (by decide) (by decide) (by decide)
      (by decide) (by decide)).1 (by decide)⟩

/-- C6: a record with round-1 and round-2 statuses both in `{N, TC}` that
matched no earlier rule gets a zero refund and a forfeiture increased by
`fee_paid`, whatever the round-3 value is. -/
theorem c6_forfeit_not_joined (r : Record)
    (hn1 : sstatus r.JoinStatus_1 = "N" ∨ sstatus r.JoinStatus_1 = "TC")
    (hn2 : sstatus r.JoinStatus_2 = "N" ∨ sstatus r.JoinStatus_2 = "TC")
    (h1 : ¬ rule2Guard r) (h2 : ¬ rule1Guard r) (h3 : ¬ rule3Guard r)
    (h4 : ¬ noAllotGuard r) :
    (compute_refund r).RefundAmount = 0 ∧
      (compute_refund r).NewForefit = r.forefit + r.regfeepaid := by
  have e1 : sstatus r.JoinStatus_1 ≠ "Y" := by
    rcases hn1 with h | h <;> rw [h] <;> decide
  have e2 : sstatus r.JoinStatus_2 ≠ "Y" := by
    rcases hn2 with h | h <;> rw [h] <;> decide
  have e3 : sstatus r.JoinStatus_1 ≠ "" := by
    rcases hn1 with h | h <;> rw [h] <;> decide
  have h0 : ¬ specialGuard r := by
    intro hx
    rcases hx.1 with h | h
    · exact e1 h
    · exact e2 h
  have h5 : ¬ joinedEarlyGuard r := by
    intro hx
    rcases hx with h | h
    · exact e1 h
    · exact e2 h
  have hp : ¬ phase3Block r := fun hx => e3 hx.1
  unfold compute_refund
  rw [if_neg h0, if_neg h1, if_neg h2, if_neg h3, if_neg h4, if_neg h5,
    if_neg (fun hx => hp hx.1), if_neg (fun hx => hp hx.1),
    if_neg (fun hx => hp hx.1),
    if_pos (show notJoinedGuard r from ⟨hn1, hn2⟩)]
  by_cases h9 : sstatus r.JoinStatus_3 = "N"
  · rw [if_pos h9]; exact ⟨rfl, rfl⟩
  · rw [if_neg h9]; exact ⟨rfl, rfl⟩

/-- Witness for C6 at scenario 4 (`JoinStatus_1 = "N"`,
`JoinStatus_2 = "TC"`, `JoinStatus_3 = "N"`, no stray, `fee_paid = 1000`,
`prior_forfeiture = 0`, with a round-1 allotment recorded). -/
theorem c6_witness :
    (compute_refund recNotJoined).RefundAmount = 0 ∧
      (compute_refund recNotJoined).NewForefit =
        recNotJoined.forefit + recNotJoined.regfeepaid :=
  c6_forfeit_not_joined recNotJoined (by decide) (by decide) (by decide)
    (by decide) (by decide) (by decide)

/-- C7: the comparator keeps every computed row; a computed row with no
reference match is paired with reference amount `0`, and the mismatch
flag of any merged row is `true` exactly when the absolute difference of
the computed and reference amounts exceeds `0.0001`. -/
theorem c7_comparator (rows : List OutRow) (manual : List (String × ℚ)) :
    (∀ r ∈ rows, manual.filter (fun p => p.1 == r.APPLNO) = [] →
        mkMerged r 0 ∈ merged rows manual) ∧
      ∀ m ∈ merged rows manual,
        (m.Mismatch = true ↔
          |m.ComputedRefund - m.ManualRefund| > (0.0001 : ℚ)) := by
  constructor
  · intro r hr hf
    unfold merged
    refine List.mem_flatMap.2 ⟨r, hr, ?_⟩
    rw [hf]
    simp
  · intro m hm
    unfold merged at hm
    obtain ⟨r, hr, hm⟩ := List.mem_flatMap.1 hm
    rcases hf : manual.filter (fun p => p.1 == r.APPLNO) with _ | ⟨p, ps⟩
    · rw [hf] at hm
      have hm2 : m ∈ [mkMerged r 0] := hm
      rw [List.mem_singleton] at hm2
      subst hm2
      simp [mkMerged]
    · rw [hf] at hm
      have hm2 : m ∈ (p :: ps).map (fun q => mkMerged r q.2) := hm
      obtain ⟨q, hq, rfl⟩ := List.mem_map.1 hm2
      simp [mkMerged]

/-- Witness for C7: a two-row computed table against a one-row reference
table — the unmatched row is paired with `0`, and a matched merged row
satisfies the mismatch equivalence. -/
theorem c7_witness :
    mkMerged ⟨"A2", 7⟩ 0 ∈
      merged [⟨"A1", 5000⟩, ⟨"A2", 7⟩] [("A1", 4990)] ∧
      ((mkMerged ⟨"A1", 5000⟩ 4990).Mismatch = true ↔
        |(mkMerged ⟨"A1", 5000⟩ 4990).ComputedRefund -
            (mkMerged ⟨"A1", 5000⟩ 4990).ManualRefund| > (0.0001 : ℚ)) :=
  ⟨(c7_comparator [⟨"A1", 5000⟩, ⟨"A2", 7⟩] [("A1", 4990)]).1 ⟨"A2", 7⟩
      (by decide) (by decide),
    (c7_comparator [⟨"A1", 5000⟩, ⟨"A2", 7⟩] [("A1", 4990)]).2
      (mkMerged ⟨"A1", 5000⟩ 4990) (by simp +decide [merged])⟩

/-- C8 (counterexample): the cell `"-5"` is parsed to the negative number
`-5`; the normalizer does not force non-negativity. -/
theorem c8_counterexample :
    to_num (RawCell.str "-5") = -5 ∧ to_num (RawCell.str "-5") < 0 := by
  decide

/-- C8 (amended): the normalizer strips thousands separators, turns
null/`"nan"`/`"None"` cells into zero and coerces any unparsable value to
zero instead of failing — but the result is a plain signed number, not a
clamped non-negative one (see the counterexample). -/
theorem c8_normalizer :
    to_num RawCell.null = 0 ∧
      to_num (RawCell.str "nan") = 0 ∧
      to_num (RawCell.str "None") = 0 ∧
      to_num (RawCell.str "1,000") = 1000 ∧
      ∀ s : String, pyParse (replaceNanNone (stripCommas s)).toList = none →
        to_num (RawCell.str s) = 0 := by
  refine ⟨by decide, by decide, by decide, by decide, ?_⟩
  intro s h
  show (pyParse (replaceNanNone (stripCommas s)).toList).getD 0 = 0
  rw [h]
  rfl

/-- Witness for C8 (amended): the unparsable cell `"abc"` coerces to `0`. -/
theorem c8_witness : to_num (RawCell.str "abc") = 0 :=
  c8_normalizer.2.2.2.2 "abc" (by decide)

/-- Every branch of `compute_refund` returns the forfeiture either
unchanged or increased by exactly `fee_paid`. -/
lemma newForefit_cases (r : Record) :
    (compute_refund r).NewForefit = r.forefit ∨
      (compute_refund r).NewForefit = r.forefit + r.regfeepaid := by
  unfold compute_refund
  by_cases h0 : specialGuard r
  · rw [if_pos h0]; exact Or.inl rfl
  rw [if_neg h0]
  by_cases h1 : rule2Guard r
  · rw [if_pos h1]; exact Or.inl rfl
  rw [if_neg h1]
  by_cases h2 : rule1Guard r
  · rw [if_pos h2]; exact Or.inl rfl
  rw [if_neg h2]
  by_cases h3 : rule3Guard r
  · rw [if_pos h3]; exact Or.inl rfl
  rw [if_neg h3]
  by_cases h4 : noAllotGuard r
  · rw [if_pos h4]; exact Or.inl rfl
  rw [if_neg h4]
  by_cases h5 : joinedEarlyGuard r
  · rw [if_pos h5]
    by_cases h6 : anyTC r
    · rw [if_pos h6]; exact Or.inr rfl
    · rw [if_neg h6]; exact Or.inl rfl
  rw [if_neg h5]
  by_cases h7 : phase3Block r ∧ sstatus r.JoinStatus_3 = "Y"
  · rw [if_pos h7]; exact Or.inl rfl
  rw [if_neg h7]
  by_cases h8 : phase3Block r ∧ sstatus r.JoinStray = "Y" ∧
      sstatus r.JoinStatus_3 = "Y"
  · rw [if_pos h8]; exact Or.inl rfl
  rw [if_neg h8]
  by_cases h9 : phase3Block r ∧ sstatus r.JoinStray = "Y" ∧
      sstatus r.JoinStatus_3 ≠ "Y"
  · rw [if_pos h9]; exact Or.inr rfl
  rw [if_neg h9]
  by_cases h10 : notJoinedGuard r
  · rw [if_pos h10]
    by_cases h11 : sstatus r.JoinStatus_3 = "N"
    · rw [if_pos h11]; exact Or.inr rfl
    · rw [if_neg h11]; exact Or.inr rfl
  rw [if_neg h10]
  exact Or.inl rfl

/-- C9: with a non-negative `fee_paid`, no branch of `compute_refund` ever
lowers the forfeiture balance — it is kept or increased by `fee_paid`; in
particular no branch resets it to zero. -/
theorem c9_forefit_monotone (r : Record) (h : 0 ≤ r.regfeepaid) :
    r.forefit ≤ (compute_refund r).NewForefit := by
  rcases newForefit_cases r with he | he
  · exact le_of_eq he.symm
  · rw [he]; linarith

/-- Witness for C9 at a concrete record (joined then TC, fee 2000). -/
theorem c9_witness :
    (0 : ℚ) ≤ recJoinedTC.regfeepaid ∧
      recJoinedTC.forefit ≤ (compute_refund recJoinedTC).NewForefit :=
  ⟨by decide, c9_forefit_monotone recJoinedTC (by decide)⟩

/-- C10: a record with empty round-1 and round-2 statuses, stray flag `Y`
and round-3 status not `Y`, that does not match the no-allotment rule
(the only earlier rule it could match), forfeits the fee with the
stray-not-joined category. -/
theorem c10_stray_not_joined (r : Record)
    (h1 : sstatus r.JoinStatus_1 = "")
    (h2 : sstatus r.JoinStatus_2 = "")
    (hs : sstatus r.JoinStray = "Y")
    (h3 : sstatus r.JoinStatus_3 ≠ "Y")
    (hna : ¬ noAllotGuard r) :
    compute_refund r =
      ⟨0, r.forefit + r.regfeepaid,
        "Stray allotted but NOT joined - no refund"⟩ := by
  have e1 : sstatus r.JoinStatus_1 ≠ "Y" := by rw [h1]; decide
  have e2 : sstatus r.JoinStatus_2 ≠ "Y" := by rw [h2]; decide
  have h0 : ¬ specialGuard r := by
    intro hx
    rcases hx.1 with h | h
    · exact e1 h
    · exact e2 h
  have hr2 : ¬ rule2Guard r := fun hx => h3 hx.2.2.2.2
  have hr1 : ¬ rule1Guard r := fun hx => h3 hx.2.2.2.2
  have hr3 : ¬ rule3Guard r := fun hx => h3 hx.2.2.2
  have hje : ¬ joinedEarlyGuard r := by
    intro hx
    rcases hx with h | h
    · exact e1 h
    · exact e2 h
  unfold compute_refund
  rw [if_neg h0, if_neg hr2, if_neg hr1, if_neg hr3, if_neg hna, if_neg hje,
    if_neg (fun hx => h3 hx.2), if_neg (fun hx => h3 hx.2.2),
    if_pos (show phase3Block r ∧ sstatus r.JoinStray = "Y" ∧
      sstatus r.JoinStatus_3 ≠ "Y" from ⟨⟨h1, h2⟩, hs, h3⟩)]

/-- Witness for C10: stray allotted (`Stray = "S"`), stray flag `Y`,
round-3 status `N`, fee 1000. -/
theorem c10_witness :
    sstatus recStrayForfeit.JoinStray = "Y" ∧
      sstatus recStrayForfeit.JoinStatus_3 ≠ "Y" ∧
      compute_refund recStrayForfeit =
        ⟨0, recStrayForfeit.forefit + recStrayForfeit.regfeepaid,
          "Stray allotted but NOT joined - no refund"⟩ :=
  ⟨by decide, by decide,
    c10_stray_not_joined recStrayForfeit (by decide) (by decide) (by decide)
      (by decide) (by decide)⟩

end Refund
